import Mathlib

/-!
Verification of the `cloudfront` Architect macro (`src/index.js`).

The macro is a pure-ish transformation `(arc, sam, stage) → sam` over
in-memory JavaScript values.  We embed the JavaScript value universe as
`JsVal` (with `undef` distinct from `null`, since property access on a
missing key yields `undefined` and destructuring defaults fire only on
`undefined`), JavaScript truthiness as `truthy`, and objects as ordered
association lists with JavaScript assignment semantics (`setField`
replaces in place or appends).

The external `toLogicalID` helper from `@architect/utils` is an opaque
pure function; every definition is parameterised by it.

A call either returns the (mutated) template or throws a string; we model
the outcome as `CfOut`, recording the returned-or-thrown result, the final
state of the `sam` object (observable by the caller even after a throw),
the final state of the `arc` object, and the console messages emitted.
-/

/-- JavaScript values, as far as this macro observes them. -/
inductive JsVal : Type where
  | undef : JsVal
  | null : JsVal
  | bool : Bool → JsVal
  | num : Int → JsVal
  | str : String → JsVal
  | arr : List JsVal → JsVal
  | obj : List (String × JsVal) → JsVal

/-- JavaScript truthiness: `undefined`, `null`, `false`, `0` and `""` are
falsy; every object and array (even empty) is truthy. -/
def truthy : JsVal → Bool
  | JsVal.undef => false
  | JsVal.null => false
  | JsVal.bool b => b
  | JsVal.num n => n != 0
  | JsVal.str s => s != ""
  | JsVal.arr _ => true
  | JsVal.obj _ => true

/-- Property read on an object association list: `o[k]`, `undefined` when
the key is absent. -/
def lookupField : List (String × JsVal) → String → JsVal
  | [], _ => JsVal.undef
  | (k₁, v₁) :: rest, k => if k₁ = k then v₁ else lookupField rest k

/-- Property write `o[k] = v`: replaces the existing binding in place, or
appends a new one (JavaScript key insertion order). -/
def setField : List (String × JsVal) → String → JsVal → List (String × JsVal)
  | [], k, v => [(k, v)]
  | (k₁, v₁) :: rest, k, v =>
      if k₁ = k then (k, v) :: rest else (k₁, v₁) :: setField rest k v

/-- The keys of an object, in order. -/
def keys (l : List (String × JsVal)) : List String := l.map Prod.fst

/-- Property read on an arbitrary JavaScript value: non-object receivers
yield `undefined` for the property names this macro uses. -/
def getField : JsVal → String → JsVal
  | JsVal.obj o, k => lookupField o k
  | _, _ => JsVal.undef

/-- The parsed `app.arc` value, restricted to the two properties the macro
reads: `arc.static` and `arc["cloudfront-distribution"]`. -/
structure Arc : Type where
  static : JsVal
  cloudfrontDistribution : JsVal

/-- The CloudFormation template: its `Resources` and `Outputs` sections. -/
structure Sam : Type where
  Resources : List (String × JsVal)
  Outputs : List (String × JsVal)

/-- Observable outcome of one invocation: the returned template or the
thrown message, the final state of the `sam` object, the final state of
the `arc` object, and the console messages emitted. -/
structure CfOut : Type where
  result : Except String Sam
  samAfter : Sam
  arcAfter : Arc
  logs : List String

/-- `console.warn` message when `arc.static` is falsy (line 13). -/
def noStaticMsg : String := "No static S3 bucket configured!"

/-- `console.warn` message when `@cloudfront-distribution` is absent
(lines 21-23). -/
def noCloudfrontMsg : String :=
  "No Cloudfront configuration available! Please add @cloudfront-distribution to your arc config file."

/-- Thrown when the derived bucket resource is missing (line 56). -/
def cannotFindBucketMsg : String := "Cannot find bucket!"

/-- Thrown on a resource-name collision (line 169). -/
def nameCollisionMsg : String :=
  "Cannot create resources in CloudFormation - names already in use!"

/-- The destructured `bucket` config value with its default:
`["bucket"]: bucketName = "Static"` (line 45) — the default fires only
when the property is `undefined`. -/
def bucketVal (cf : JsVal) : JsVal :=
  match getField cf "bucket" with
  | JsVal.undef => JsVal.str "Static"
  | v => v

/-- `bucket.ID = toLogicalID(bucketName)` (line 50). -/
def bucketID (toLogicalID : JsVal → String) (cf : JsVal) : String :=
  toLogicalID (bucketVal cf)

/-- `bucket.Name` (line 51). -/
def bucketResName (toLogicalID : JsVal → String) (cf : JsVal) : String :=
  bucketID toLogicalID cf ++ "Bucket"

/-- `cloudFrontOriginAccessIdentity.Name` (line 63). -/
def cloudFrontOriginAccessIdentityName (toLogicalID : JsVal → String) (cf : JsVal) : String :=
  bucketID toLogicalID cf ++ "CloudFrontOriginAccessIdentity"

/-- `responseHeadersPolicy.Name` (line 75). -/
def responseHeadersPolicyName (toLogicalID : JsVal → String) (cf : JsVal) : String :=
  bucketID toLogicalID cf ++ "ResponseHeadersPolicy"

/-- `cloudFrontDistribution.Name` (line 109). -/
def cloudFrontDistributionName (toLogicalID : JsVal → String) (cf : JsVal) : String :=
  bucketID toLogicalID cf ++ "CloudFrontDistribution"

/-- `cloudFrontOriginAccessIdentity.sam` (lines 64-71). -/
def cloudFrontOriginAccessIdentitySam : JsVal :=
  JsVal.obj
    [("Type", JsVal.str "AWS::CloudFront::CloudFrontOriginAccessIdentity"),
     ("Properties", JsVal.obj
       [("CloudFrontOriginAccessIdentityConfig", JsVal.obj [])])]

/-- `responseHeadersPolicy.sam` (lines 76-105): the fixed security-header
bundle. -/
def responseHeadersPolicySam : JsVal :=
  JsVal.obj
    [("Type", JsVal.str "AWS::CloudFront::ResponseHeadersPolicy"),
     ("Properties", JsVal.obj
       [("ResponseHeadersPolicyConfig", JsVal.obj
         [("Name", JsVal.obj
            [("Fn::Sub", JsVal.str "${AWS::StackName}-static-site-security-headers")]),
          ("SecurityHeadersConfig", JsVal.obj
            [("StrictTransportSecurity", JsVal.obj
               [("AccessControlMaxAgeSec", JsVal.num 63072000),
                ("IncludeSubdomains", JsVal.bool true),
                ("Override", JsVal.bool true),
                ("Preload", JsVal.bool true)]),
             ("ContentSecurityPolicy", JsVal.obj
               [("ContentSecurityPolicy", JsVal.str
                   "default-src \x27none\x27; img-src \x27self\x27; script-src \x27self\x27; style-src \x27self\x27; object-src \x27none\x27"),
                ("Override", JsVal.bool true)]),
             ("ContentTypeOptions", JsVal.obj
               [("Override", JsVal.bool true)]),
             ("FrameOptions", JsVal.obj
               [("FrameOption", JsVal.str "DENY"),
                ("Override", JsVal.bool true)]),
             ("ReferrerPolicy", JsVal.obj
               [("ReferrerPolicy", JsVal.str "same-origin"),
                ("Override", JsVal.bool true)]),
             ("XSSProtection", JsVal.obj
               [("ModeBlock", JsVal.bool true),
                ("Override", JsVal.bool true),
                ("Protection", JsVal.bool true)])])])])]

/-- `generateCustomErrorResponse({path, code})` (lines 28-39): `null` for a
falsy path, otherwise a fully formed entry. -/
def generateCustomErrorResponse (path : JsVal) (code : Int) : JsVal :=
  if truthy path then
    JsVal.obj
      [("ErrorCachingMinTTL", JsVal.num 60),
       ("ErrorCode", JsVal.num code),
       ("ResponseCode", JsVal.num code),
       ("ResponsePagePath", path)]
  else JsVal.null

/-- `cloudFrontDistribution.sam` (lines 110-158). -/
def cloudFrontDistributionSam (toLogicalID : JsVal → String) (cf : JsVal) : JsVal :=
  JsVal.obj
    [("Type", JsVal.str "AWS::CloudFront::Distribution"),
     ("Properties", JsVal.obj
       [("DistributionConfig", JsVal.obj
         [("CustomErrorResponses", JsVal.arr (List.filter truthy
            [generateCustomErrorResponse (getField cf "page-403") 403,
             generateCustomErrorResponse (getField cf "page-404") 404])),
          ("DefaultCacheBehavior", JsVal.obj
            [("Compress", JsVal.bool true),
             ("DefaultTTL", JsVal.num 86400),
             ("ForwardedValues", JsVal.obj [("QueryString", JsVal.bool true)]),
             ("MaxTTL", JsVal.num 31536000),
             ("TargetOriginId", JsVal.obj
               [("Fn::Sub", JsVal.str "S3-${AWS::StackName}-root")]),
             ("ViewerProtocolPolicy", JsVal.str "redirect-to-https"),
             ("ResponseHeadersPolicyId", JsVal.obj
               [("Ref", JsVal.str (responseHeadersPolicyName toLogicalID cf))])]),
          ("DefaultRootObject", getField cf "page-default"),
          ("Enabled", JsVal.bool true),
          ("HttpVersion", JsVal.str "http2"),
          ("IPV6Enabled", JsVal.bool true),
          ("Origins", JsVal.arr
            [JsVal.obj
              [("DomainName", JsVal.obj
                 [("Ref", JsVal.str (bucketResName toLogicalID cf))]),
               ("Id", JsVal.obj
                 [("Fn::Sub", JsVal.str "S3-${AWS::StackName}-root")]),
               ("S3OriginConfig", JsVal.obj
                 [("OriginAccessIdentity", JsVal.obj
                    [("Fn::Join", JsVal.arr
                       [JsVal.str "",
                        JsVal.arr
                          [JsVal.str "origin-access-identity/cloudfront/",
                           JsVal.obj
                             [("Ref", JsVal.str
                                (cloudFrontOriginAccessIdentityName toLogicalID cf))]]])])])]]),
          ("PriceClass", JsVal.str "PriceClass_All")])])]

/-- The `Outputs` entry added for the new distribution (lines 177-182). -/
def distributionOutput (name : String) : JsVal :=
  JsVal.obj
    [("Description", JsVal.str "CloudFront distribution"),
     ("Value", JsVal.obj
       [("Fn::GetAtt", JsVal.str (name ++ ".DomainName"))])]

/-- The template after the three insertion statements (lines 172-182).
The origin-access identity is written under
`sam.Resources[cloudFrontOriginAccessIdentity.name]`: the `.name` property
(lowercase, line 173) is `undefined`, which JavaScript coerces to the
property key `"undefined"`. -/
def insertedSam (toLogicalID : JsVal → String) (cf : JsVal) (sam : Sam) : Sam :=
  { Resources :=
      setField
        (setField sam.Resources (cloudFrontDistributionName toLogicalID cf)
          (cloudFrontDistributionSam toLogicalID cf))
        "undefined" cloudFrontOriginAccessIdentitySam,
    Outputs :=
      setField sam.Outputs (cloudFrontDistributionName toLogicalID cf)
        (distributionOutput (cloudFrontDistributionName toLogicalID cf)) }

/-- The macro itself (`module.exports = function cloudfront(arc, sam, stage)`).
The collision check (lines 160-163) tests `sam.Resources` at the
distribution name and at `cloudFrontOriginAccessIdentity.name`, i.e. at
the coerced key `"undefined"`.  `stage` is accepted but never read. -/
def cloudfront (toLogicalID : JsVal → String) (arc : Arc) (sam : Sam)
    (stage : String) : CfOut :=
  match truthy arc.static with
  | false =>
      { result := Except.ok sam, samAfter := sam, arcAfter := arc,
        logs := [noStaticMsg] }
  | true =>
    match truthy arc.cloudfrontDistribution with
    | false =>
        { result := Except.ok sam, samAfter := sam, arcAfter := arc,
          logs := [noCloudfrontMsg] }
    | true =>
      match truthy (lookupField sam.Resources
          (bucketResName toLogicalID arc.cloudfrontDistribution)) with
      | false =>
          { result := Except.error cannotFindBucketMsg, samAfter := sam,
            arcAfter := arc, logs := [cannotFindBucketMsg] }
      | true =>
        match truthy (lookupField sam.Resources
              (cloudFrontDistributionName toLogicalID arc.cloudfrontDistribution))
            || truthy (lookupField sam.Resources "undefined") with
        | true =>
            { result := Except.error nameCollisionMsg, samAfter := sam,
              arcAfter := arc, logs := [nameCollisionMsg] }
        | false =>
            let sam₂ := insertedSam toLogicalID arc.cloudfrontDistribution sam
            { result := Except.ok sam₂, samAfter := sam₂, arcAfter := arc,
              logs := [] }

/-! ### Library lemmas about the object model and the derived names -/

theorem lookupField_setField_self (l : List (String × JsVal)) (k : String) (v : JsVal) :
    lookupField (setField l k v) k = v := by
  induction l with
  | nil => simp [setField, lookupField]
  | cons p rest ih =>
      obtain ⟨k₁, v₁⟩ := p
      by_cases h : k₁ = k
      · simp [setField, lookupField, h]
      · simp [setField, lookupField, h, ih]

theorem lookupField_setField_ne (l : List (String × JsVal)) (k k' : String) (v : JsVal)
    (h : k' ≠ k) : lookupField (setField l k v) k' = lookupField l k' := by
  induction l with
  | nil => simp [setField, lookupField, Ne.symm h]
  | cons p rest ih =>
      obtain ⟨k₁, v₁⟩ := p
      by_cases h₁ : k₁ = k
      · subst h₁
        simp [setField, lookupField, Ne.symm h]
      · by_cases h₂ : k₁ = k'
        · simp [setField, lookupField, h₁, h₂, h, ih]
        · simp [setField, lookupField, h₁, h₂, h, ih]

theorem keys_setField_of_not_mem (l : List (String × JsVal)) (k : String) (v : JsVal)
    (h : k ∉ keys l) : keys (setField l k v) = keys l ++ [k] := by
  induction l with
  | nil => simp [setField, keys]
  | cons p rest ih =>
      obtain ⟨k₁, v₁⟩ := p
      simp only [keys, List.map_cons, List.mem_cons] at h
      push_neg at h
      have h₁ : ¬ k₁ = k := fun he => h.1 he.symm
      have h₂ := ih (by simpa [keys] using h.2)
      simp only [keys] at h₂
      simp only [setField, if_neg h₁, keys, List.map_cons, List.cons_append]
      rw [h₂]

theorem mem_of_mem_keys (l : List (String × JsVal)) (k : String) (h : k ∈ keys l) :
    (k, lookupField l k) ∈ l := by
  induction l with
  | nil => simp [keys] at h
  | cons p rest ih =>
      obtain ⟨k₁, v₁⟩ := p
      by_cases h₁ : k₁ = k
      · subst h₁
        simp [lookupField]
      · simp only [keys, List.map_cons, List.mem_cons] at h
        rcases h with h | h
        · exact absurd h.symm h₁
        · simp only [lookupField, h₁, if_false, List.mem_cons]
          exact Or.inr (ih h)

theorem lookupField_eq_undef_of_not_mem (l : List (String × JsVal)) (k : String)
    (h : k ∉ keys l) : lookupField l k = JsVal.undef := by
  induction l with
  | nil => rfl
  | cons p rest ih =>
      obtain ⟨k₁, v₁⟩ := p
      simp only [keys, List.map_cons, List.mem_cons] at h
      push_neg at h
      have h₁ : ¬ k₁ = k := fun he => h.1 he.symm
      simp only [lookupField, if_neg h₁]
      exact ih (by simpa [keys] using h.2)

/-- Well-formed `Resources` section: every stored resource definition is a
truthy value (in a real template each is an object). -/
def wfResources (l : List (String × JsVal)) : Prop :=
  ∀ p ∈ l, truthy p.2 = true

theorem not_mem_keys_of_truthy_false (l : List (String × JsVal)) (k : String)
    (hwf : wfResources l) (h : truthy (lookupField l k) = false) : k ∉ keys l := by
  intro hmem
  have hm := mem_of_mem_keys l k hmem
  have ht : truthy (lookupField l k) = true := hwf (k, lookupField l k) hm
  rw [h] at ht
  exact Bool.false_ne_true ht

theorem append_ne_of_suffix_ne (a b c : String)
    (h : b.data ≠ c.data.drop (c.data.length - b.data.length)) : a ++ b ≠ c := by
  intro he
  apply h
  have hd : c.data = a.data ++ b.data := by rw [← he, String.data_append]
  rw [hd, List.length_append, Nat.add_sub_cancel, List.drop_left]

theorem append_right_ne (a b c : String) (h : b ≠ c) : a ++ b ≠ a ++ c := by
  intro he
  apply h
  have hd : a.data ++ b.data = a.data ++ c.data := by
    rw [← String.data_append, ← String.data_append, he]
  exact String.ext (List.append_cancel_left hd)

theorem bucketResName_ne_distName (toLogicalID : JsVal → String) (cf : JsVal) :
    bucketResName toLogicalID cf ≠ cloudFrontDistributionName toLogicalID cf :=
  append_right_ne _ "Bucket" "CloudFrontDistribution" (by decide)

theorem rhpName_ne_distName (toLogicalID : JsVal → String) (cf : JsVal) :
    responseHeadersPolicyName toLogicalID cf ≠ cloudFrontDistributionName toLogicalID cf :=
  append_right_ne _ "ResponseHeadersPolicy" "CloudFrontDistribution" (by decide)

theorem bucketResName_ne_undefined (toLogicalID : JsVal → String) (cf : JsVal) :
    bucketResName toLogicalID cf ≠ "undefined" :=
  append_ne_of_suffix_ne _ "Bucket" "undefined" (by decide)

theorem distName_ne_undefined (toLogicalID : JsVal → String) (cf : JsVal) :
    cloudFrontDistributionName toLogicalID cf ≠ "undefined" :=
  append_ne_of_suffix_ne _ "CloudFrontDistribution" "undefined" (by decide)

theorem rhpName_ne_undefined (toLogicalID : JsVal → String) (cf : JsVal) :
    responseHeadersPolicyName toLogicalID cf ≠ "undefined" :=
  append_ne_of_suffix_ne _ "ResponseHeadersPolicy" "undefined" (by decide)

/-- Inversion of a successful run with a configured bucket and distribution
section: the bucket lookup was truthy, the collision check was negative, and
the returned template is exactly `insertedSam`. -/
theorem cloudfront_ok_inv (toLogicalID : JsVal → String) (arc : Arc) (sam : Sam)
    (stage : String) (s : Sam)
    (hs : truthy arc.static = true)
    (hc : truthy arc.cloudfrontDistribution = true)
    (h : (cloudfront toLogicalID arc sam stage).result = Except.ok s) :
    truthy (lookupField sam.Resources (bucketResName toLogicalID arc.cloudfrontDistribution)) = true
    ∧ truthy (lookupField sam.Resources (cloudFrontDistributionName toLogicalID arc.cloudfrontDistribution)) = false
    ∧ truthy (lookupField sam.Resources "undefined") = false
    ∧ s = insertedSam toLogicalID arc.cloudfrontDistribution sam
    ∧ (cloudfront toLogicalID arc sam stage).samAfter = s := by
  cases hb : truthy (lookupField sam.Resources
      (bucketResName toLogicalID arc.cloudfrontDistribution)) with
  | false =>
      exfalso
      simp [cloudfront, hs, hc, hb] at h
  | true =>
      cases hcol : truthy (lookupField sam.Resources
            (cloudFrontDistributionName toLogicalID arc.cloudfrontDistribution))
          || truthy (lookupField sam.Resources "undefined") with
      | true =>
          exfalso
          simp [cloudfront, hs, hc, hb, hcol] at h
      | false =>
          have hok : s = insertedSam toLogicalID arc.cloudfrontDistribution sam := by
            simp [cloudfront, hs, hc, hb, hcol] at h
            exact h.symm
          have hparts := Bool.or_eq_false_iff.mp hcol
          refine ⟨rfl, hparts.1, hparts.2, hok, ?_⟩
          simp [cloudfront, hs, hc, hb, hcol, hok]

/-! ### Concrete sample inputs for witnesses and counterexamples -/

/-- A concrete stand-in for the opaque `toLogicalID`: identity on strings
(so that `"Media" ↦ "Media"`, `"Static" ↦ "Static"`). -/
def tlEx : JsVal → String
  | JsVal.str s => s
  | _ => ""

/-- A valid config: `static` set, a distribution section with both error
pages and no explicit bucket identifier (so the default `"Static"` applies). -/
def arcEx : Arc :=
  { static := JsVal.bool true,
    cloudfrontDistribution := JsVal.obj
      [("page-403", JsVal.str "/403.html"), ("page-404", JsVal.str "/404.html")] }

/-- A template holding just the expected `StaticBucket` resource. -/
def samEx : Sam :=
  { Resources := [("StaticBucket", JsVal.obj [("Type", JsVal.str "AWS::S3::Bucket")])],
    Outputs := [] }

/-- An empty template. -/
def samEmpty : Sam := { Resources := [], Outputs := [] }

/-! ### Claim theorems -/

/-- Claim C4: if `config.static` is falsy, or it is truthy but the
`cloudfront-distribution` section is falsy, the call emits one diagnostic and
returns the template structurally unchanged (a non-fatal no-op). -/
theorem c4_noop_on_missing_config (toLogicalID : JsVal → String) (arc : Arc)
    (sam : Sam) (stage : String) :
    (truthy arc.static = false →
      cloudfront toLogicalID arc sam stage =
        { result := Except.ok sam, samAfter := sam, arcAfter := arc,
          logs := [noStaticMsg] })
    ∧ (truthy arc.static = true → truthy arc.cloudfrontDistribution = false →
      cloudfront toLogicalID arc sam stage =
        { result := Except.ok sam, samAfter := sam, arcAfter := arc,
          logs := [noCloudfrontMsg] }) := by
  constructor
  · intro h
    simp [cloudfront, h]
  · intro h₁ h₂
    simp [cloudfront, h₁, h₂]

/-- Witness for C4 at two concrete configs: one without `static`, one with
`static` but without a distribution section. -/
theorem c4_noop_on_missing_config_witness :
    cloudfront tlEx { static := JsVal.undef, cloudfrontDistribution := JsVal.obj [] }
        samEx "staging" =
      { result := Except.ok samEx, samAfter := samEx,
        arcAfter := { static := JsVal.undef, cloudfrontDistribution := JsVal.obj [] },
        logs := [noStaticMsg] }
    ∧ cloudfront tlEx { static := JsVal.bool true, cloudfrontDistribution := JsVal.undef }
        samEx "staging" =
      { result := Except.ok samEx, samAfter := samEx,
        arcAfter := { static := JsVal.bool true, cloudfrontDistribution := JsVal.undef },
        logs := [noCloudfrontMsg] } :=
  ⟨(c4_noop_on_missing_config tlEx _ samEx "staging").1 rfl,
   (c4_noop_on_missing_config tlEx _ samEx "staging").2 rfl rfl⟩

/-- Claim C8: the config argument is never mutated — on every invocation the
final state of the `arc` object equals its initial state. -/
theorem c8_config_not_mutated (toLogicalID : JsVal → String) (arc : Arc)
    (sam : Sam) (stage : String) :
    (cloudfront toLogicalID arc sam stage).arcAfter = arc := by
  unfold cloudfront
  repeat' split
  all_goals rfl

/-- Claim C9: the `stage` parameter is inert — any two stage values produce
identical outcomes. -/
theorem c9_stage_inert (toLogicalID : JsVal → String) (arc : Arc) (sam : Sam)
    (s₁ s₂ : String) :
    cloudfront toLogicalID arc sam s₁ = cloudfront toLogicalID arc sam s₂ := rfl

/-- Claim C5: the distribution's custom-error-response list is built from
(403, page-403) then (404, page-404), where the builder yields `null` for a
falsy path and otherwise an entry with minimum-cache TTL 60, the code as both
error and response code, and the page path; nulls are filtered out and order
is preserved, so with both paths truthy the list is exactly the two entries
and with neither truthy it is empty. -/
theorem c5_custom_error_responses (toLogicalID : JsVal → String) (cf : JsVal) :
    getField (getField (getField (cloudFrontDistributionSam toLogicalID cf)
        "Properties") "DistributionConfig") "CustomErrorResponses"
      = JsVal.arr (List.filter truthy
          [generateCustomErrorResponse (getField cf "page-403") 403,
           generateCustomErrorResponse (getField cf "page-404") 404])
    ∧ (∀ path : JsVal, ∀ code : Int, truthy path = false →
        generateCustomErrorResponse path code = JsVal.null)
    ∧ (∀ path : JsVal, ∀ code : Int, truthy path = true →
        generateCustomErrorResponse path code = JsVal.obj
          [("ErrorCachingMinTTL", JsVal.num 60),
           ("ErrorCode", JsVal.num code),
           ("ResponseCode", JsVal.num code),
           ("ResponsePagePath", path)])
    ∧ (truthy (getField cf "page-403") = true → truthy (getField cf "page-404") = true →
        getField (getField (getField (cloudFrontDistributionSam toLogicalID cf)
            "Properties") "DistributionConfig") "CustomErrorResponses"
          = JsVal.arr
              [generateCustomErrorResponse (getField cf "page-403") 403,
               generateCustomErrorResponse (getField cf "page-404") 404])
    ∧ (truthy (getField cf "page-403") = false → truthy (getField cf "page-404") = false →
        getField (getField (getField (cloudFrontDistributionSam toLogicalID cf)
            "Properties") "DistributionConfig") "CustomErrorResponses"
          = JsVal.arr []) := by
  refine ⟨rfl, ?_, ?_, ?_, ?_⟩
  · intro path code h
    simp [generateCustomErrorResponse, h]
  · intro path code h
    simp [generateCustomErrorResponse, h]
  · intro h₁ h₂
    have e₁ : truthy (generateCustomErrorResponse (getField cf "page-403") 403) = true := by
      rw [generateCustomErrorResponse, if_pos h₁]
      rfl
    have e₂ : truthy (generateCustomErrorResponse (getField cf "page-404") 404) = true := by
      rw [generateCustomErrorResponse, if_pos h₂]
      rfl
    show JsVal.arr (List.filter truthy _) = _
    rw [List.filter_cons, List.filter_cons]
    simp [e₁, e₂]
  · intro h₁ h₂
    have e₁ : generateCustomErrorResponse (getField cf "page-403") 403 = JsVal.null := by
      simp [generateCustomErrorResponse, h₁]
    have e₂ : generateCustomErrorResponse (getField cf "page-404") 404 = JsVal.null := by
      simp [generateCustomErrorResponse, h₂]
    show JsVal.arr (List.filter truthy _) = _
    rw [e₁, e₂]
    rfl

/-- Witness for C5 at the sample config with both error pages set. -/
theorem c5_custom_error_responses_witness :
    getField (getField (getField (cloudFrontDistributionSam tlEx
        arcEx.cloudfrontDistribution) "Properties") "DistributionConfig")
        "CustomErrorResponses"
      = JsVal.arr
          [JsVal.obj
            [("ErrorCachingMinTTL", JsVal.num 60),
             ("ErrorCode", JsVal.num 403),
             ("ResponseCode", JsVal.num 403),
             ("ResponsePagePath", JsVal.str "/403.html")],
           JsVal.obj
            [("ErrorCachingMinTTL", JsVal.num 60),
             ("ErrorCode", JsVal.num 404),
             ("ResponseCode", JsVal.num 404),
             ("ResponsePagePath", JsVal.str "/404.html")]] := by
  have h := (c5_custom_error_responses tlEx arcEx.cloudfrontDistribution).2.2.2.1 rfl rfl
  exact h

/-- A config whose `static` marker is falsy while a distribution section is
present (with the default bucket identifier). -/
def arcStaticFalsy : Arc :=
  { static := JsVal.undef, cloudfrontDistribution := JsVal.obj [] }

/-- A template already containing the derived distribution name
`StaticCloudFrontDistribution`. -/
def samWithDist : Sam :=
  { Resources := [("StaticCloudFrontDistribution", JsVal.obj [])], Outputs := [] }

/-- Counterexample to C2 as stated: the claim quantifies over every config,
but with a falsy `static` marker the call returns normally (no fatal
failure) even though `Resources` already contains the derived distribution
name. -/
theorem c2_counterexample :
    cloudFrontDistributionName tlEx arcStaticFalsy.cloudfrontDistribution
        = "StaticCloudFrontDistribution"
    ∧ truthy (lookupField samWithDist.Resources "StaticCloudFrontDistribution") = true
    ∧ (cloudfront tlEx arcStaticFalsy samWithDist "staging").result
        = Except.ok samWithDist
    ∧ (cloudfront tlEx arcStaticFalsy samWithDist "staging").samAfter = samWithDist :=
  ⟨rfl, rfl, rfl, rfl⟩

/-- Claim C2 (amended): for every config whose `static` marker and
distribution section are truthy, and every template whose `Resources` holds a
truthy value under the derived distribution name, the call raises a fatal
failure and the template is unchanged (no new `Resources` keys, no `Outputs`
entry). -/
theorem c2_amended (toLogicalID : JsVal → String) (arc : Arc) (sam : Sam)
    (stage : String)
    (hs : truthy arc.static = true)
    (hc : truthy arc.cloudfrontDistribution = true)
    (hd : truthy (lookupField sam.Resources
        (cloudFrontDistributionName toLogicalID arc.cloudfrontDistribution)) = true) :
    (∃ e, (cloudfront toLogicalID arc sam stage).result = Except.error e)
    ∧ (cloudfront toLogicalID arc sam stage).samAfter = sam := by
  cases hb : truthy (lookupField sam.Resources
      (bucketResName toLogicalID arc.cloudfrontDistribution)) with
  | false =>
      exact ⟨⟨cannotFindBucketMsg, by simp [cloudfront, hs, hc, hb]⟩,
             by simp [cloudfront, hs, hc, hb]⟩
  | true =>
      have hcol : (truthy (lookupField sam.Resources
            (cloudFrontDistributionName toLogicalID arc.cloudfrontDistribution))
          || truthy (lookupField sam.Resources "undefined")) = true := by
        rw [hd]
        rfl
      exact ⟨⟨nameCollisionMsg, by simp [cloudfront, hs, hc, hb, hcol]⟩,
             by simp [cloudfront, hs, hc, hb, hcol]⟩

/-- A template already containing both the bucket and the derived
distribution name. -/
def samBucketAndDist : Sam :=
  { Resources :=
      [("StaticBucket", JsVal.obj [("Type", JsVal.str "AWS::S3::Bucket")]),
       ("StaticCloudFrontDistribution", JsVal.obj [])],
    Outputs := [] }

/-- Witness for the amended C2 at a concrete valid config and a template
that already holds the distribution name. -/
theorem c2_amended_witness :
    (∃ e, (cloudfront tlEx arcEx samBucketAndDist "staging").result = Except.error e)
    ∧ (cloudfront tlEx arcEx samBucketAndDist "staging").samAfter = samBucketAndDist :=
  c2_amended tlEx arcEx samBucketAndDist "staging" rfl rfl rfl

/-- A config whose `static` marker is falsy while the distribution section
names the bucket identifier `Media`. -/
def arcMediaNoStatic : Arc :=
  { static := JsVal.bool false,
    cloudfrontDistribution := JsVal.obj [("bucket", JsVal.str "Media")] }

/-- Counterexample to C3 as stated: the claim quantifies over every config
with distribution settings, but with a falsy `static` marker the call returns
normally although the derived bucket resource `MediaBucket` is absent. -/
theorem c3_counterexample :
    bucketResName tlEx arcMediaNoStatic.cloudfrontDistribution = "MediaBucket"
    ∧ lookupField samEmpty.Resources "MediaBucket" = JsVal.undef
    ∧ (cloudfront tlEx arcMediaNoStatic samEmpty "staging").result
        = Except.ok samEmpty
    ∧ (cloudfront tlEx arcMediaNoStatic samEmpty "staging").samAfter = samEmpty :=
  ⟨rfl, rfl, rfl, rfl⟩

/-- Claim C3 (amended): for every config whose `static` marker and
distribution section are truthy, the bucket resource name is the bucket
identifier's logical ID suffixed with `Bucket` (with default identifier
`Static`, and `Media` yielding `MediaBucket`), and if that key is absent from
`template.Resources` the call raises a fatal failure before inserting
anything into `Resources` or `Outputs`. -/
theorem c3_amended (toLogicalID : JsVal → String) (arc : Arc) (sam : Sam)
    (stage : String)
    (hs : truthy arc.static = true)
    (hc : truthy arc.cloudfrontDistribution = true)
    (habs : bucketResName toLogicalID arc.cloudfrontDistribution ∉ keys sam.Resources) :
    (cloudfront toLogicalID arc sam stage).result = Except.error cannotFindBucketMsg
    ∧ (cloudfront toLogicalID arc sam stage).samAfter = sam
    ∧ bucketResName toLogicalID arc.cloudfrontDistribution
        = toLogicalID (bucketVal arc.cloudfrontDistribution) ++ "Bucket"
    ∧ (getField arc.cloudfrontDistribution "bucket" = JsVal.undef →
        bucketVal arc.cloudfrontDistribution = JsVal.str "Static")
    ∧ (getField arc.cloudfrontDistribution "bucket" = JsVal.str "Media" →
        toLogicalID (JsVal.str "Media") = "Media" →
        bucketResName toLogicalID arc.cloudfrontDistribution = "MediaBucket") := by
  have hb : truthy (lookupField sam.Resources
      (bucketResName toLogicalID arc.cloudfrontDistribution)) = false := by
    rw [lookupField_eq_undef_of_not_mem _ _ habs]
    rfl
  refine ⟨?_, ?_, rfl, ?_, ?_⟩
  · simp [cloudfront, hs, hc, hb]
  · simp [cloudfront, hs, hc, hb]
  · intro h
    simp [bucketVal, h]
  · intro h hm
    simp only [bucketResName, bucketID, bucketVal, h, hm]
    rfl

/-- A valid config naming the bucket identifier `Media`. -/
def arcMedia : Arc :=
  { static := JsVal.bool true,
    cloudfrontDistribution := JsVal.obj [("bucket", JsVal.str "Media")] }

/-- Witness for the amended C3: with bucket identifier `Media` and an empty
template the call fails fatally, nothing is inserted, and the derived name is
`MediaBucket`. -/
theorem c3_amended_witness :
    (cloudfront tlEx arcMedia samEmpty "staging").result
        = Except.error cannotFindBucketMsg
    ∧ (cloudfront tlEx arcMedia samEmpty "staging").samAfter = samEmpty
    ∧ bucketResName tlEx arcMedia.cloudfrontDistribution = "MediaBucket" := by
  have h := c3_amended tlEx arcMedia samEmpty "staging" rfl rfl (by decide)
  exact ⟨h.1, h.2.1, h.2.2.2.2 rfl rfl⟩

/-- A template whose `Outputs` section already contains an entry under the
derived distribution name. -/
def samOutputsPre : Sam :=
  { Resources := [("StaticBucket", JsVal.obj [("Type", JsVal.str "AWS::S3::Bucket")])],
    Outputs := [("StaticCloudFrontDistribution", JsVal.null)] }

/-- Counterexample to C6 as stated: a successful call against a template
whose `Outputs` already holds the distribution name overwrites that entry,
so `Outputs` gains no new entry. -/
theorem c6_counterexample :
    (cloudfront tlEx arcEx samOutputsPre "staging").result
        = Except.ok (cloudfront tlEx arcEx samOutputsPre "staging").samAfter
    ∧ keys (cloudfront tlEx arcEx samOutputsPre "staging").samAfter.Outputs
        = keys samOutputsPre.Outputs :=
  ⟨rfl, rfl⟩

/-- Claim C6 (amended): on every successful resource-inserting call (truthy
`static` and distribution section) against a template whose `Outputs` does
not yet contain the derived distribution name, `Outputs` gains exactly one
new entry, keyed by that name, holding the description string and an
`Fn::GetAtt` reference to the distribution's `DomainName` attribute. -/
theorem c6_amended (toLogicalID : JsVal → String) (arc : Arc) (sam : Sam)
    (stage : String) (s : Sam)
    (hs : truthy arc.static = true)
    (hc : truthy arc.cloudfrontDistribution = true)
    (h : (cloudfront toLogicalID arc sam stage).result = Except.ok s)
    (hout : cloudFrontDistributionName toLogicalID arc.cloudfrontDistribution
        ∉ keys sam.Outputs) :
    keys s.Outputs = keys sam.Outputs
        ++ [cloudFrontDistributionName toLogicalID arc.cloudfrontDistribution]
    ∧ lookupField s.Outputs
        (cloudFrontDistributionName toLogicalID arc.cloudfrontDistribution)
      = distributionOutput
          (cloudFrontDistributionName toLogicalID arc.cloudfrontDistribution)
    ∧ distributionOutput
          (cloudFrontDistributionName toLogicalID arc.cloudfrontDistribution)
      = JsVal.obj
          [("Description", JsVal.str "CloudFront distribution"),
           ("Value", JsVal.obj
             [("Fn::GetAtt", JsVal.str
                (cloudFrontDistributionName toLogicalID arc.cloudfrontDistribution
                  ++ ".DomainName"))])] := by
  obtain ⟨-, -, -, hs1, -⟩ :=
    cloudfront_ok_inv toLogicalID arc sam stage s hs hc h
  subst hs1
  refine ⟨?_, ?_, rfl⟩
  · exact keys_setField_of_not_mem _ _ _ hout
  · exact lookupField_setField_self _ _ _

/-- Witness for the amended C6 at the sample valid config and template. -/
theorem c6_amended_witness :
    keys (cloudfront tlEx arcEx samEx "staging").samAfter.Outputs
        = keys samEx.Outputs
            ++ [cloudFrontDistributionName tlEx arcEx.cloudfrontDistribution]
    ∧ lookupField (cloudfront tlEx arcEx samEx "staging").samAfter.Outputs
          (cloudFrontDistributionName tlEx arcEx.cloudfrontDistribution)
        = distributionOutput
            (cloudFrontDistributionName tlEx arcEx.cloudfrontDistribution) := by
  have h := c6_amended tlEx arcEx samEx "staging"
      (cloudfront tlEx arcEx samEx "staging").samAfter rfl rfl rfl (by decide)
  exact ⟨h.1, h.2.1⟩

/-- Claim C7: with a valid config (truthy `static` and distribution section),
if a first call on a template succeeds, the second call on the resulting
template fails with the name-collision error and leaves that template
untouched — nothing is silently duplicated or overwritten. -/
theorem c7_second_call_collides (toLogicalID : JsVal → String) (arc : Arc)
    (sam : Sam) (stage : String) (s₁ : Sam)
    (hs : truthy arc.static = true)
    (hc : truthy arc.cloudfrontDistribution = true)
    (h : (cloudfront toLogicalID arc sam stage).result = Except.ok s₁) :
    (cloudfront toLogicalID arc s₁ stage).result = Except.error nameCollisionMsg
    ∧ (cloudfront toLogicalID arc s₁ stage).samAfter = s₁ := by
  obtain ⟨hb, -, -, hs1, -⟩ :=
    cloudfront_ok_inv toLogicalID arc sam stage s₁ hs hc h
  subst hs1
  have hb2 : truthy (lookupField
      (insertedSam toLogicalID arc.cloudfrontDistribution sam).Resources
      (bucketResName toLogicalID arc.cloudfrontDistribution)) = true := by
    simp only [insertedSam]
    rw [lookupField_setField_ne _ _ _ _
          (bucketResName_ne_undefined toLogicalID arc.cloudfrontDistribution),
        lookupField_setField_ne _ _ _ _
          (bucketResName_ne_distName toLogicalID arc.cloudfrontDistribution)]
    exact hb
  have hd2 : truthy (lookupField
      (insertedSam toLogicalID arc.cloudfrontDistribution sam).Resources
      (cloudFrontDistributionName toLogicalID arc.cloudfrontDistribution)) = true := by
    simp only [insertedSam]
    rw [lookupField_setField_ne _ _ _ _
          (distName_ne_undefined toLogicalID arc.cloudfrontDistribution),
        lookupField_setField_self]
    rfl
  have hcol : (truthy (lookupField
        (insertedSam toLogicalID arc.cloudfrontDistribution sam).Resources
        (cloudFrontDistributionName toLogicalID arc.cloudfrontDistribution))
      || truthy (lookupField
        (insertedSam toLogicalID arc.cloudfrontDistribution sam).Resources
        "undefined")) = true := by
    rw [hd2]
    rfl
  constructor
  · simp [cloudfront, hs, hc, hb2, hcol]
  · simp [cloudfront, hs, hc, hb2, hcol]

/-- Witness for C7: running the macro twice on the sample template, the
second call throws the collision error and changes nothing. -/
theorem c7_second_call_collides_witness :
    (cloudfront tlEx arcEx
        (cloudfront tlEx arcEx samEx "staging").samAfter "staging").result
      = Except.error nameCollisionMsg
    ∧ (cloudfront tlEx arcEx
        (cloudfront tlEx arcEx samEx "staging").samAfter "staging").samAfter
      = (cloudfront tlEx arcEx samEx "staging").samAfter :=
  c7_second_call_collides tlEx arcEx samEx "staging"
    (cloudfront tlEx arcEx samEx "staging").samAfter rfl rfl rfl

/-- Claim C10: on a successful insertion (truthy `static` and distribution
section, well-formed `Resources`), the template gains exactly two new
resource keys — the derived distribution name and the literal `"undefined"`
(the origin-access identity is stored under `"undefined"` and the
response-headers policy is never inserted) — and the collision precondition
fires fatally whenever the incoming template already holds a truthy resource
under `"undefined"`. -/
theorem c10_actual_insertions (toLogicalID : JsVal → String) (arc : Arc)
    (sam : Sam) (stage : String)
    (hs : truthy arc.static = true)
    (hc : truthy arc.cloudfrontDistribution = true)
    (hwf : wfResources sam.Resources) :
    (∀ s : Sam, (cloudfront toLogicalID arc sam stage).result = Except.ok s →
      keys s.Resources = keys sam.Resources
          ++ [cloudFrontDistributionName toLogicalID arc.cloudfrontDistribution,
              "undefined"]
      ∧ lookupField s.Resources
          (cloudFrontDistributionName toLogicalID arc.cloudfrontDistribution)
        = cloudFrontDistributionSam toLogicalID arc.cloudfrontDistribution
      ∧ lookupField s.Resources "undefined" = cloudFrontOriginAccessIdentitySam
      ∧ lookupField s.Resources
          (responseHeadersPolicyName toLogicalID arc.cloudfrontDistribution)
        = lookupField sam.Resources
            (responseHeadersPolicyName toLogicalID arc.cloudfrontDistribution))
    ∧ (truthy (lookupField sam.Resources
          (bucketResName toLogicalID arc.cloudfrontDistribution)) = true →
       truthy (lookupField sam.Resources "undefined") = true →
       (cloudfront toLogicalID arc sam stage).result = Except.error nameCollisionMsg
       ∧ (cloudfront toLogicalID arc sam stage).samAfter = sam) := by
  constructor
  · intro s h
    obtain ⟨-, hd, hu, hs1, -⟩ :=
      cloudfront_ok_inv toLogicalID arc sam stage s hs hc h
    subst hs1
    have hnd := not_mem_keys_of_truthy_false sam.Resources _ hwf hd
    have hnu := not_mem_keys_of_truthy_false sam.Resources _ hwf hu
    have hnu2 : "undefined" ∉ keys (setField sam.Resources
        (cloudFrontDistributionName toLogicalID arc.cloudfrontDistribution)
        (cloudFrontDistributionSam toLogicalID arc.cloudfrontDistribution)) := by
      rw [keys_setField_of_not_mem _ _ _ hnd]
      intro hmem
      rcases List.mem_append.mp hmem with h' | h'
      · exact hnu h'
      · exact distName_ne_undefined toLogicalID arc.cloudfrontDistribution
          (List.mem_singleton.mp h').symm
    refine ⟨?_, ?_, ?_, ?_⟩
    · show keys (insertedSam toLogicalID arc.cloudfrontDistribution sam).Resources = _
      simp only [insertedSam]
      rw [keys_setField_of_not_mem _ _ _ hnu2,
          keys_setField_of_not_mem _ _ _ hnd, List.append_assoc]
      rfl
    · show lookupField (insertedSam toLogicalID arc.cloudfrontDistribution sam).Resources _ = _
      simp only [insertedSam]
      rw [lookupField_setField_ne _ _ _ _
            (distName_ne_undefined toLogicalID arc.cloudfrontDistribution),
          lookupField_setField_self]
    · show lookupField (insertedSam toLogicalID arc.cloudfrontDistribution sam).Resources _ = _
      simp only [insertedSam]
      rw [lookupField_setField_self]
    · show lookupField (insertedSam toLogicalID arc.cloudfrontDistribution sam).Resources _ = _
      simp only [insertedSam]
      rw [lookupField_setField_ne _ _ _ _
            (rhpName_ne_undefined toLogicalID arc.cloudfrontDistribution),
          lookupField_setField_ne _ _ _ _
            (rhpName_ne_distName toLogicalID arc.cloudfrontDistribution)]
  · intro hb hu
    have hcol : (truthy (lookupField sam.Resources
          (cloudFrontDistributionName toLogicalID arc.cloudfrontDistribution))
        || truthy (lookupField sam.Resources "undefined")) = true := by
      rw [hu, Bool.or_true]
    constructor
    · simp [cloudfront, hs, hc, hb, hcol]
    · simp [cloudfront, hs, hc, hb, hcol]

/-- A template already containing a resource under the key `"undefined"`. -/
def samUndefinedKey : Sam :=
  { Resources :=
      [("StaticBucket", JsVal.obj [("Type", JsVal.str "AWS::S3::Bucket")]),
       ("undefined", JsVal.obj [("Type", JsVal.str "AWS::SNS::Topic")])],
    Outputs := [] }

/-- Witness for C10: on the sample template the successful call adds exactly
the keys `StaticCloudFrontDistribution` and `"undefined"`, and a template
that already holds a resource keyed `"undefined"` makes the call throw. -/
theorem c10_actual_insertions_witness :
    keys (cloudfront tlEx arcEx samEx "staging").samAfter.Resources
        = keys samEx.Resources
            ++ [cloudFrontDistributionName tlEx arcEx.cloudfrontDistribution,
                "undefined"]
    ∧ (cloudfront tlEx arcEx samUndefinedKey "staging").result
        = Except.error nameCollisionMsg := by
  constructor
  · exact ((c10_actual_insertions tlEx arcEx samEx "staging" rfl rfl
      (by unfold wfResources; decide)).1
      (cloudfront tlEx arcEx samEx "staging").samAfter rfl).1
  · exact ((c10_actual_insertions tlEx arcEx samUndefinedKey "staging" rfl rfl
      (by unfold wfResources; decide)).2 rfl rfl).1

/-- Claim C1 is contradicted by the code (a slip): evaluated at a concrete
valid input the call succeeds, yet the response-headers policy is absent
from `Resources` under its derived name, the origin-access identity is
absent under its derived name and stored under the literal key
`"undefined"` instead, while the distribution still references both derived
names. -/
theorem c1_code_evaluation :
    (cloudfront tlEx arcEx samEx "staging").result
        = Except.ok (cloudfront tlEx arcEx samEx "staging").samAfter
    ∧ responseHeadersPolicyName tlEx arcEx.cloudfrontDistribution
        = "StaticResponseHeadersPolicy"
    ∧ cloudFrontOriginAccessIdentityName tlEx arcEx.cloudfrontDistribution
        = "StaticCloudFrontOriginAccessIdentity"
    ∧ lookupField (cloudfront tlEx arcEx samEx "staging").samAfter.Resources
        "StaticResponseHeadersPolicy" = JsVal.undef
    ∧ lookupField (cloudfront tlEx arcEx samEx "staging").samAfter.Resources
        "StaticCloudFrontOriginAccessIdentity" = JsVal.undef
    ∧ lookupField (cloudfront tlEx arcEx samEx "staging").samAfter.Resources
        "undefined" = cloudFrontOriginAccessIdentitySam
    ∧ getField (getField (getField (getField
        (lookupField (cloudfront tlEx arcEx samEx "staging").samAfter.Resources
          "StaticCloudFrontDistribution")
        "Properties") "DistributionConfig") "DefaultCacheBehavior")
        "ResponseHeadersPolicyId"
      = JsVal.obj [("Ref", JsVal.str "StaticResponseHeadersPolicy")] :=
  ⟨rfl, rfl, rfl, rfl, rfl, rfl, rfl⟩
